import Mathlib

/-
Verification of the react-pixi proof-of-concept host adapter.

The development shallowly embeds the host-config callbacks of the
reconciler module and the render entry point of the ReactPixi module.
JavaScript functions with an empty body return undefined; where the
return value matters this is modelled as Option.none, and where only
mutation could matter the function is modelled as returning its
mutable arguments unchanged. Machine numbers are modelled as Int.
-/

namespace ReactPixiPoc

/-- A rectangle as passed to Graphics.drawRect(x, y, width, height). -/
structure Rect where
  x : Int
  y : Int
  width : Int
  height : Int
deriving DecidableEq, Repr

/-- Model of a PIXI.Graphics node: the fill colour set by beginFill, the
rectangle drawn by drawRect, and the child list of the underlying container. -/
structure Graphics where
  fillColor : Int
  rect : Rect
  children : List Nat
deriving DecidableEq, Repr

/-- Model of a plain PIXI container (such as app.stage): its child list.
Children are identified by node ids. -/
structure PixiContainer where
  children : List Nat
deriving DecidableEq, Repr

/-- Element kinds. TYPE_RECTANGLE is imported from the types module, which is
not part of the adapter sources; it is modelled as the distinguished
rectangle constructor, and every other kind carries its name. -/
inductive ElemKind where
  | rectangle
  | other (name : String)
deriving DecidableEq, Repr

/-- The display name of a kind, used in the unknown-element error message.
The concrete string behind TYPE_RECTANGLE is not observable in any claim. -/
def kindName : ElemKind → String
  | .rectangle => "RECTANGLE"
  | .other name => name

/-- Props of an element: the four rectangle properties, each possibly absent
(absent stands for the property being missing or undefined in the JS object). -/
structure Props where
  x : Option Int
  y : Option Int
  width : Option Int
  height : Option Int
deriving DecidableEq, Repr

/-- Host context. getRootHostContext returns null, getChildHostContext forwards
its parent context, so the only value ever produced is null (none). -/
abbrev HostContext := Option Unit

/-- getRootHostContext returns null. -/
def getRootHostContext (_rootContainer : PixiContainer) : HostContext := none

/-- getChildHostContext returns the parent host context unchanged. -/
def getChildHostContext (parentHostContext : HostContext) (_ty : ElemKind)
    (_rootContainer : PixiContainer) : HostContext :=
  parentHostContext

/-- createInstance: on TYPE_RECTANGLE it destructures x, y, width, height from
props with defaults 0, 0, 100, 100, builds a fresh Graphics, fills it with
0xffffff and draws the rectangle; on any other kind it throws
Error("Unknown element type: " + type). Throwing is modelled as Except.error. -/
def createInstance (ty : ElemKind) (props : Props) (_pixiContainer : PixiContainer)
    (_hostContext : HostContext) (_internalHandle : Nat) : Except String Graphics :=
  match ty with
  | .rectangle =>
      let x := props.x.getD 0
      let y := props.y.getD 0
      let width := props.width.getD 100
      let height := props.height.getD 100
      Except.ok ⟨0xffffff, ⟨x, y, width, height⟩, []⟩
  | .other name => Except.error ("Unknown element type: " ++ name)

/-- appendInitialChild has an empty body: it neither touches the parent child
list nor the child. Modelled as returning both mutable arguments unchanged. -/
def appendInitialChild (parentInstance : Graphics) (child : Graphics) :
    Graphics × Graphics :=
  (parentInstance, child)

/-- finalizeInitialChildren returns false for every input. -/
def finalizeInitialChildren (_inst : Graphics) (_ty : ElemKind) (_props : Props)
    (_rootContainer : PixiContainer) (_hostContext : HostContext) : Bool :=
  false

/-- The shape an update payload would have: a record of changed properties. -/
abbrev UpdatePayload := Props

/-- prepareUpdate has an empty body: it returns undefined (modelled none) for
every pair of old and new props, and, being pure, touches no node. -/
def prepareUpdate (_inst : Graphics) (_ty : ElemKind) (_oldProps _newProps : Props)
    (_rootContainer : PixiContainer) (_hostContext : HostContext) :
    Option UpdatePayload :=
  none

/-- shouldSetTextContent returns false for every input. -/
def shouldSetTextContent (_ty : ElemKind) (_props : Props) : Bool :=
  false

/-- getPublicInstance has an empty body: it returns undefined (modelled none)
rather than the instance. -/
def getPublicInstance {α : Type} (_inst : α) : Option α :=
  none

/-- appendChild calls parentInstance.addChild(child); PIXI addChild appends the
child at the end of the child list. -/
def appendChild (parentInstance : Graphics) (child : Nat) : Graphics :=
  ⟨parentInstance.fillColor, parentInstance.rect, parentInstance.children ++ [child]⟩

/-- insertBefore has an empty body: the parent is left unchanged. -/
def insertBefore (parentInstance : Graphics) (_child _beforeChild : Nat) : Graphics :=
  parentInstance

/-- clearContainer has an empty body: the container is left unchanged. -/
def clearContainer (container : PixiContainer) : PixiContainer :=
  container

/-- Model of the logging decorator logFunctionCall: it applies cb to the
arguments, logs a line naming the callback, and returns the result unchanged.
The log line is returned alongside the result to model the console output. -/
def logFunctionCall {α β : Type} (name : String) (cb : α → β) (args : α) :
    β × String :=
  let result := cb args
  (result, "[fn] " ++ name)

/-- Whether c occurs immediately before s somewhere in the list. -/
def immediatelyPrecedes (c s : Nat) : List Nat → Bool
  | [] => false
  | [_] => false
  | a :: b :: t => (a == c && b == s) || immediatelyPrecedes c s (b :: t)

/-- The root container handed to ReactPixi.render, with its _rootContainer
expando: none before the first render call, some handle afterwards. -/
structure RootContainer where
  rootContainer : Option Nat
deriving DecidableEq, Repr

/-- The reconciliation engine, abstract over its internal state σ:
createContainer returns a fresh root handle, updateContainer takes an element,
a root handle and a callback and returns the update-submission result. -/
structure Reconciler (σ : Type) where
  createContainer : RootContainer → σ → Nat × σ
  updateContainer : Nat → Nat → Option Nat → σ → Nat × σ

/-- ReactPixi.render: if the container has no cached _rootContainer it creates
one via reconciler.createContainer and stores it; then it always calls
reconciler.updateContainer with the cached handle and returns its result. -/
def render {σ : Type} (recon : Reconciler σ) (reactElement : Nat)
    (pixiContainer : RootContainer) (callback : Option Nat) (s : σ) :
    Nat × RootContainer × σ :=
  match pixiContainer.rootContainer with
  | none =>
      let created := recon.createContainer pixiContainer s
      let submitted := recon.updateContainer reactElement created.1 callback created.2
      (submitted.1, RootContainer.mk (some created.1), submitted.2)
  | some h =>
      let submitted := recon.updateContainer reactElement h callback s
      (submitted.1, pixiContainer, submitted.2)

/-- Claim C1: node creation succeeds exactly on the rectangle kind; for every
other kind it throws the unsupported-kind error synchronously and produces no
node, and this failure carries the unknown-element message. -/
theorem createInstance_fails_iff_unsupported (ty : ElemKind) (props : Props)
    (pc : PixiContainer) (hc : HostContext) (ih : Nat) :
    ((createInstance ty props pc hc ih).isOk = true ↔ ty = ElemKind.rectangle)
    ∧ (∀ name, ty = ElemKind.other name →
        createInstance ty props pc hc ih
          = Except.error ("Unknown element type: " ++ name)) := by
  cases ty with
  | rectangle =>
      refine ⟨⟨fun _ => rfl, fun _ => rfl⟩, ?_⟩
      intro name hn
      exact ElemKind.noConfusion hn
  | other name =>
      refine ⟨⟨fun hko => ?_, fun hko => ?_⟩, ?_⟩
      · exact Bool.noConfusion hko
      · exact ElemKind.noConfusion hko
      · intro n hn
        injection hn with he
        rw [he]
        rfl

/-- Witness for C1 at a concrete unsupported kind and at the rectangle kind. -/
theorem createInstance_fails_iff_unsupported_witness :
    createInstance (ElemKind.other "CIRCLE") ⟨none, none, none, none⟩ ⟨[]⟩ none 0
      = Except.error "Unknown element type: CIRCLE"
    ∧ (createInstance ElemKind.rectangle ⟨none, none, none, none⟩ ⟨[]⟩ none 0).isOk
      = true := by
  have h1 := createInstance_fails_iff_unsupported (ElemKind.other "CIRCLE")
    ⟨none, none, none, none⟩ ⟨[]⟩ none 0
  have h2 := createInstance_fails_iff_unsupported ElemKind.rectangle
    ⟨none, none, none, none⟩ ⟨[]⟩ none 0
  exact ⟨h1.2 "CIRCLE" rfl, h2.1.mpr rfl⟩

/-- Claim C2: for the rectangle kind with any subset of x, y, width, height
omitted, the omitted properties get the fixed defaults (0 for x and y, 100 for
width and height), provided properties are used as given, and the node is drawn
with the resulting rectangle and the white fill. -/
theorem createInstance_rectangle_defaults (props : Props) (pc : PixiContainer)
    (hc : HostContext) (ih : Nat) :
    ∃ g : Graphics,
      createInstance ElemKind.rectangle props pc hc ih = Except.ok g
      ∧ g.fillColor = 0xffffff
      ∧ g.rect = ⟨props.x.getD 0, props.y.getD 0, props.width.getD 100,
          props.height.getD 100⟩
      ∧ (props.x = none → g.rect.x = 0)
      ∧ (props.y = none → g.rect.y = 0)
      ∧ (props.width = none → g.rect.width = 100)
      ∧ (props.height = none → g.rect.height = 100)
      ∧ (∀ v, props.x = some v → g.rect.x = v)
      ∧ (∀ v, props.y = some v → g.rect.y = v)
      ∧ (∀ v, props.width = some v → g.rect.width = v)
      ∧ (∀ v, props.height = some v → g.rect.height = v) := by
  refine ⟨⟨0xffffff, ⟨props.x.getD 0, props.y.getD 0, props.width.getD 100,
    props.height.getD 100⟩, []⟩, rfl, rfl, rfl, ?_, ?_, ?_, ?_, ?_, ?_, ?_, ?_⟩
  · intro h; simp [h]
  · intro h; simp [h]
  · intro h; simp [h]
  · intro h; simp [h]
  · intro v h; simp [h]
  · intro v h; simp [h]
  · intro v h; simp [h]
  · intro v h; simp [h]

/-- Witness for C2: x provided as 3 and width as 50, y and height omitted. -/
theorem createInstance_rectangle_defaults_witness :
    ∃ g : Graphics,
      createInstance ElemKind.rectangle ⟨some 3, none, some 50, none⟩ ⟨[]⟩ none 0
        = Except.ok g
      ∧ g.rect.x = 3 ∧ g.rect.y = 0 ∧ g.rect.width = 50 ∧ g.rect.height = 100 := by
  obtain ⟨g, hok, _, _, _, hy0, _, hh0, hx, _, hw, _⟩ :=
    createInstance_rectangle_defaults ⟨some 3, none, some 50, none⟩ ⟨[]⟩ none 0
  exact ⟨g, hok, hx 3 rfl, hy0 rfl, hw 50 rfl, hh0 rfl⟩

/-- Claim C3 counterexample: old props x=0, y=0, width=50, height=50 and new
props differing in x (x=10): the props differ, yet prepareUpdate returns none
rather than an update payload recording the change. -/
theorem prepareUpdate_counterexample :
    prepareUpdate ⟨0xffffff, ⟨0, 0, 50, 50⟩, []⟩ ElemKind.rectangle
        ⟨some 0, some 0, some 50, some 50⟩ ⟨some 10, some 0, some 50, some 50⟩
        ⟨[]⟩ none
      = none
    ∧ (⟨some 0, some 0, some 50, some 50⟩ : Props)
        ≠ ⟨some 10, some 0, some 50, some 50⟩ := by
  exact ⟨rfl, by decide⟩

/-- Claim C3 amended: prepareUpdate has an empty body, so it returns undefined
(no update) for every pair of old and new props, whether or not any property
changed; it never produces an update payload and, being pure, never mutates the
node. -/
theorem prepareUpdate_always_none (inst : Graphics) (ty : ElemKind)
    (oldProps newProps : Props) (rc : PixiContainer) (hc : HostContext) :
    prepareUpdate inst ty oldProps newProps rc hc = none :=
  rfl

/-- Claim C4: the render entry point creates the root handle at most once per
container: after any render the handle is cached; a second render leaves the
cached handle unchanged; when the handle is already cached the container is
returned untouched and the call returns the result of a fresh update
submission; when it is absent the handle freshly returned by createContainer is
cached and the update is submitted against it. -/
theorem render_root_singleton {σ : Type} (recon : Reconciler σ) (e₁ e₂ : Nat)
    (cb₁ cb₂ : Option Nat) (pc : RootContainer) (s : σ) :
    (render recon e₁ pc cb₁ s).2.1.rootContainer.isSome = true
    ∧ (render recon e₂ (render recon e₁ pc cb₁ s).2.1 cb₂
          (render recon e₁ pc cb₁ s).2.2).2.1.rootContainer
        = (render recon e₁ pc cb₁ s).2.1.rootContainer
    ∧ (∀ h, pc.rootContainer = some h →
        render recon e₁ pc cb₁ s
          = ((recon.updateContainer e₁ h cb₁ s).1, pc,
              (recon.updateContainer e₁ h cb₁ s).2))
    ∧ (pc.rootContainer = none →
        (render recon e₁ pc cb₁ s).2.1.rootContainer
            = some (recon.createContainer pc s).1
        ∧ (render recon e₁ pc cb₁ s).1
            = (recon.updateContainer e₁ (recon.createContainer pc s).1 cb₁
                (recon.createContainer pc s).2).1) := by
  obtain ⟨rc⟩ := pc
  cases rc with
  | none =>
      refine ⟨rfl, rfl, ?_, ?_⟩
      · intro h hh
        exact Option.noConfusion hh
      · intro _
        exact ⟨rfl, rfl⟩
  | some h =>
      refine ⟨rfl, rfl, ?_, ?_⟩
      · intro h₂ hh
        injection hh with he
        rw [he]
        rfl
      · intro hh
        exact Option.noConfusion hh

/-- Witness for C4 with a concrete engine over state Nat: the container already
caches handle 7, so render reuses it and returns the update result 8. -/
theorem render_root_singleton_witness :
    render (Reconciler.mk (fun _ n => (n, n + 1))
        (fun _ hdl _ n => (hdl + n + 1, n + 1)) : Reconciler Nat)
      1 (RootContainer.mk (some 7)) none 0
      = (8, RootContainer.mk (some 7), 1) := by
  have h := render_root_singleton
    (Reconciler.mk (fun _ n => (n, n + 1))
      (fun _ hdl _ n => (hdl + n + 1, n + 1)) : Reconciler Nat)
    1 2 none none (RootContainer.mk (some 7)) 0
  exact (h.2.2.1 7 rfl).trans rfl

/-- Claim C5 counterexample: a parent whose children are [5, 7]; asking
insertBefore to move child 7 before sibling 5 leaves the list [5, 7], so 7 does
not end up immediately before 5. -/
theorem insertBefore_counterexample :
    (insertBefore ⟨0xffffff, ⟨0, 0, 100, 100⟩, [5, 7]⟩ 7 5).children = [5, 7]
    ∧ immediatelyPrecedes 7 5
        (insertBefore ⟨0xffffff, ⟨0, 0, 100, 100⟩, [5, 7]⟩ 7 5).children
      = false := by
  exact ⟨rfl, rfl⟩

/-- Claim C5 amended: insertBefore has an empty body: it performs no reorder
and no insertion, leaving the parent and its child list unchanged. -/
theorem insertBefore_noop (parentInstance : Graphics) (child beforeChild : Nat) :
    insertBefore parentInstance child beforeChild = parentInstance :=
  rfl

/-- Claim C6 counterexample: a container with one attached child keeps that
child after clearContainer; its child list does not become empty. -/
theorem clearContainer_counterexample :
    (clearContainer ⟨[3]⟩).children = [3]
    ∧ (clearContainer ⟨[3]⟩).children ≠ [] := by
  exact ⟨rfl, by decide⟩

/-- Claim C6 amended: clearContainer has an empty body: it removes nothing,
leaving the container and its child list unchanged. -/
theorem clearContainer_noop (container : PixiContainer) :
    clearContainer container = container :=
  rfl

/-- Claim C7 counterexample: for a concrete Graphics node, getPublicInstance
does not return the node itself; it returns undefined. -/
theorem getPublicInstance_counterexample :
    getPublicInstance (⟨0xffffff, ⟨0, 0, 100, 100⟩, []⟩ : Graphics)
      ≠ some ⟨0xffffff, ⟨0, 0, 100, 100⟩, []⟩ := by
  decide

/-- Claim C7 amended: getPublicInstance has an empty body: it returns undefined
(none) for every instance, never the node itself. -/
theorem getPublicInstance_returns_undefined {α : Type} (inst : α) :
    getPublicInstance inst = none :=
  rfl

/-- Claim C8: the logging decorator is transparent: for every operation and
argument list, the wrapped function returns exactly the value the callback
returns on those arguments, so the logged host config entries are behaviourally
equivalent to the plain operations. -/
theorem logFunctionCall_transparent {α β : Type} (name : String) (cb : α → β)
    (args : α) :
    (logFunctionCall name cb args).1 = cb args :=
  rfl

/-- Claim C9: finalizeInitialChildren returns false for every instance, kind,
props, root container and host context, so no instance is ever flagged for a
later commitMount call. -/
theorem finalizeInitialChildren_always_false (inst : Graphics) (ty : ElemKind)
    (props : Props) (rootContainer : PixiContainer) (hostContext : HostContext) :
    finalizeInitialChildren inst ty props rootContainer hostContext = false :=
  rfl

/-- Claim C10: appendInitialChild is a no-op: it returns both the parent (its
child list included) and the child exactly as given, attaching nothing during
the render phase. -/
theorem appendInitialChild_noop (parentInstance child : Graphics) :
    appendInitialChild parentInstance child = (parentInstance, child) :=
  rfl

end ReactPixiPoc
